import Mathlib

/-
Verification of the PostBot scheduling/dispatch engine.

Shallow embedding of the repository (src/postbot): the SQLite store (db.py)
is modelled as lists of rows, the APScheduler job registry as a list of job
keys, and the aiogram delivery channel as an oracle function returning either
a message id or an error string.  TEXT columns that hold JSON (url_buttons,
reaction_buttons) are modelled at the parsed-value level, since the code only
ever round-trips them through json.dumps/json.loads.  Timestamps
(datetime.now().isoformat()) are threaded as an explicit `now : String`
argument.  The timezone argument of APScheduler triggers only parametrises
fire instants, which the key-level registry model drops, so the pytz lookup
is not modelled.
-/

namespace Postbot

/-- Python str truthiness for an Optional[str]: `None` and `""` are falsy. -/
def truthyS : Option String → Bool
  | none => false
  | some s => s ≠ ""

/-- Python int truthiness for an Optional[int]: `None` and `0` are falsy. -/
def truthyI : Option Int → Bool
  | none => false
  | some n => n ≠ 0

/-- Normalisation `row[k] or default` applied by `Post.from_row` when a
column is NULL or an empty string. -/
def normS (v : Option String) (d : String) : String :=
  match v with
  | none => d
  | some s => if s = "" then d else s

/-- Characters removed by Python `str.strip()` (the ASCII whitespace set; the
rarely relevant further Unicode spaces are not modelled). -/
def isPySpace (c : Char) : Bool :=
  c == ' ' || c == '\t' || c == '\n' || c == '\r' || c == '\x0b' || c == '\x0c'

/-- Python `s.strip()`. -/
def pyStrip (s : String) : String :=
  ⟨((s.data.dropWhile isPySpace).reverse.dropWhile isPySpace).reverse⟩

/-- Value of a list of decimal digit characters. -/
def digitsVal (cs : List Char) : Nat :=
  cs.foldl (fun n c => 10 * n + (c.toNat - 48)) 0

/-- A non-empty all-digit character list, else `none`. -/
def digitsToNat? (cs : List Char) : Option Nat :=
  if cs ≠ [] && cs.all (·.isDigit) then some (digitsVal cs) else none

/-- Model of Python `int(s)`: strip surrounding whitespace, then an optional
sign followed by digits (the underscore-separator extension of Python 3.6+ is
not modelled; no caller produces it). -/
def pyInt? (s : String) : Option Int :=
  match (pyStrip s).data with
  | '-' :: ds => (digitsToNat? ds).map (fun n => -(n : Int))
  | '+' :: ds => (digitsToNat? ds).map (fun n => (n : Int))
  | ds => (digitsToNat? ds).map (fun n => (n : Int))

/-- Split a character list at every occurrence of `c`. -/
def splitChar (c : Char) : List Char → List (List Char)
  | [] => [[]]
  | a :: rest =>
    if a == c then [] :: splitChar c rest
    else
      match splitChar c rest with
      | g :: gs => (a :: g) :: gs
      | [] => [[a]]

/-- Python `s.split(sep)` for the single-character separators used by the
code (`","`, `":"`, `"."`). -/
def pySplit (s : String) (c : Char) : List String :=
  (splitChar c s.data).map String.mk

/-- Python `s[:n]` (slicing counts characters). -/
def pyTake (s : String) (n : Nat) : String :=
  ⟨s.data.take n⟩

/-- `h, m = map(int, t.strip().split(":"))`: exactly two colon-separated
integers, else a ValueError. -/
def parseHM (t : String) : Option (Int × Int) :=
  match pySplit (pyStrip t) ':' with
  | [hs, ms] =>
    match pyInt? hs, pyInt? ms with
    | some h, some m => some (h, m)
    | _, _ => none
  | _ => none

/-! ## Data model (models.py) -/

structure UrlButton where
  text : String
  url : String
deriving DecidableEq, Repr

structure ReactionButton where
  id : String
  text : String
  count : Nat := 0
deriving DecidableEq, Repr

structure Post where
  post_id : Nat
  chat_id : Int
  owner_id : Nat
  content : String := ""
  media_type : Option String := none
  media_file_id : Option String := none
  schedule_type : String := "once"
  scheduled_time : String := ""
  scheduled_date : Option String := none
  days_of_week : Option String := none
  day_of_month : Option Int := none
  is_active : Bool := true
  created_at : String := ""
  last_sent_at : Option String := none
  execution_count : Nat := 0
  pin_post : Bool := false
  has_spoiler : Bool := false
  has_participate_button : Bool := false
  button_text : String := "Участвовать"
  url_buttons : List UrlButton := []
  sent_message_id : Option Nat := none
  template_name : Option String := none
  reaction_buttons : List ReactionButton := []
deriving DecidableEq, Repr

/-! ## Store rows (db.py schema) -/

structure UserRow where
  user_id : Nat
  username : Option String := none
  timezone : String := "Asia/Jerusalem"
  web_token : Option String := none
deriving DecidableEq, Repr

structure ParticipantRow where
  post_id : Nat
  user_id : Nat
  username : String
  joined_at : String
deriving DecidableEq, Repr

structure ReactionRow where
  post_id : Nat
  button_id : String
  user_id : Nat
  username : String
  reacted_at : String
deriving DecidableEq, Repr

structure StatsRow where
  user_id : Nat
  posts_created : Nat := 0
  posts_sent : Nat := 0
  posts_failed : Nat := 0
  last_updated : String := ""
deriving DecidableEq, Repr

structure HistoryRow where
  post_id : Nat
  sent_at : String
  chat_id : Int
  message_id : Nat
  success : Bool
  error_text : Option String
deriving DecidableEq, Repr

/-- The persistent store: one list per table, plus the AUTOINCREMENT counter
for scheduled_posts. -/
structure DB where
  users : List UserRow := []
  posts : List Post := []
  participants : List ParticipantRow := []
  reactions : List ReactionRow := []
  stats : List StatsRow := []
  history : List HistoryRow := []
  next_post_id : Nat := 1
deriving DecidableEq, Repr

namespace Database

/-- `SELECT * FROM scheduled_posts WHERE post_id=?` (post_id is the primary
key, so the first match is the row). -/
def get_post (db : DB) (pid : Nat) : Option Post :=
  db.posts.find? (fun p => p.post_id == pid)

/-- Arguments accepted by `Database.add_post(**kw)`, with the `kw.get`
defaults of db.py. -/
structure AddArgs where
  chat_id : Int
  owner_id : Nat
  content : String := ""
  media_type : Option String := none
  media_file_id : Option String := none
  schedule_type : Option String := none
  scheduled_time : String := ""
  scheduled_date : Option String := none
  days_of_week : Option String := none
  day_of_month : Option Int := none
  pin_post : Bool := false
  has_spoiler : Bool := false
  has_participate : Bool := false
  button_text : String := "Участвовать"
  url_buttons : List UrlButton := []
  template_name : Option String := none
  reaction_buttons : List ReactionButton := []

/-- The stored row produced by the INSERT of add_post, as later decoded by
`Post.from_row` (which replaces NULL/empty schedule_type and button_text by
their defaults). -/
def mkPost (pid : Nat) (a : AddArgs) (now : String) : Post :=
  { post_id := pid
    chat_id := a.chat_id
    owner_id := a.owner_id
    content := a.content
    media_type := a.media_type
    media_file_id := a.media_file_id
    schedule_type := normS a.schedule_type "once"
    scheduled_time := a.scheduled_time
    scheduled_date := a.scheduled_date
    days_of_week := a.days_of_week
    day_of_month := a.day_of_month
    is_active := true
    created_at := now
    pin_post := a.pin_post
    has_spoiler := a.has_spoiler
    has_participate_button := a.has_participate
    button_text := if a.button_text = "" then "Участвовать" else a.button_text
    url_buttons := a.url_buttons
    template_name := a.template_name
    reaction_buttons := a.reaction_buttons }

/-- `INSERT INTO scheduled_posts ...; return cur.lastrowid`. -/
def add_post (db : DB) (a : AddArgs) (now : String) : Nat × DB :=
  (db.next_post_id,
   { db with
      posts := db.posts ++ [mkPost db.next_post_id a now]
      next_post_id := db.next_post_id + 1 })

/-- `UPDATE scheduled_posts SET ... WHERE post_id=?`: apply a column update
to every row with the given id. -/
def modifyPost (db : DB) (pid : Nat) (f : Post → Post) : DB :=
  { db with posts := db.posts.map (fun p => if p.post_id == pid then f p else p) }

/-- `update_post(pid, is_active=...)`. -/
def update_post_is_active (db : DB) (pid : Nat) (v : Bool) : DB :=
  modifyPost db pid (fun p => { p with is_active := v })

/-- `update_post(pid, scheduled_time=...)`. -/
def update_post_scheduled_time (db : DB) (pid : Nat) (t : String) : DB :=
  modifyPost db pid (fun p => { p with scheduled_time := t })

/-- `update_post(pid, content=...)`. -/
def update_post_content (db : DB) (pid : Nat) (c : String) : DB :=
  modifyPost db pid (fun p => { p with content := c })

/-- `update_post(pid, sent_message_id=..., execution_count=..., last_sent_at=...)`
as issued by the dispatcher after a successful send. -/
def update_post_sent (db : DB) (pid : Nat) (mid : Nat) (ec : Nat) (now : String) : DB :=
  modifyPost db pid (fun p =>
    { p with sent_message_id := some mid, execution_count := ec, last_sent_at := some now })

/-- `DELETE FROM scheduled_posts WHERE post_id=?; DELETE FROM participants
WHERE post_id=?` (reactions are not touched). -/
def delete_post (db : DB) (pid : Nat) : DB :=
  { db with
      posts := db.posts.filter (fun p => p.post_id ≠ pid)
      participants := db.participants.filter (fun r => r.post_id ≠ pid) }

/-- `SELECT post_id FROM scheduled_posts WHERE is_active=1 AND
schedule_type!='instant'`. -/
def get_active_posts (db : DB) : List Nat :=
  (db.posts.filter (fun p => p.is_active && p.schedule_type ≠ "instant")).map (·.post_id)

/-- `UPDATE statistics SET posts_created=posts_created+?, ... WHERE user_id=?`
(a no-op when the user has no statistics row). -/
def update_stats (db : DB) (uid : Nat) (created sent failed : Nat) (now : String) : DB :=
  { db with stats := db.stats.map (fun r =>
      if r.user_id == uid then
        { r with
            posts_created := r.posts_created + created
            posts_sent := r.posts_sent + sent
            posts_failed := r.posts_failed + failed
            last_updated := now }
      else r) }

/-- `SELECT * FROM statistics WHERE user_id=?` (user_id is UNIQUE). -/
def get_stats (db : DB) (uid : Nat) : Option StatsRow :=
  db.stats.find? (fun r => r.user_id == uid)

/-- `add_participant`: the INSERT hits the UNIQUE(post_id, user_id)
constraint when the pair exists; the IntegrityError is caught and reported
as False. -/
def add_participant (db : DB) (pid uid : Nat) (uname now : String) : Bool × DB :=
  if db.participants.any (fun r => r.post_id == pid && r.user_id == uid) then
    (false, db)
  else
    (true, { db with participants := db.participants ++ [⟨pid, uid, uname, now⟩] })

/-- `SELECT COUNT(*) FROM participants WHERE post_id=?`. -/
def count_participants (db : DB) (pid : Nat) : Nat :=
  (db.participants.filter (fun r => r.post_id == pid)).length

/-- `add_reaction`: the INSERT hits UNIQUE(post_id, button_id, user_id) when
the triple exists; the error is caught and reported as False. -/
def add_reaction (db : DB) (pid : Nat) (bid : String) (uid : Nat) (uname now : String) :
    Bool × DB :=
  if db.reactions.any (fun r => r.post_id == pid && r.button_id == bid && r.user_id == uid) then
    (false, db)
  else
    (true, { db with reactions := db.reactions ++ [⟨pid, bid, uid, uname, now⟩] })

/-- `DELETE FROM reactions WHERE post_id=? AND button_id=? AND user_id=?`,
reporting whether any row was deleted. -/
def remove_reaction (db : DB) (pid : Nat) (bid : String) (uid : Nat) : Bool × DB :=
  let hit := db.reactions.any (fun r => r.post_id == pid && r.button_id == bid && r.user_id == uid)
  let kept := db.reactions.filter
    (fun r => !(r.post_id == pid && r.button_id == bid && r.user_id == uid))
  (hit, { db with reactions := kept })

/-- `SELECT button_id FROM reactions WHERE post_id=? AND user_id=?` with
`fetchone`: the first matching row, if any. -/
def get_user_reaction (db : DB) (pid uid : Nat) : Option String :=
  (db.reactions.find? (fun r => r.post_id == pid && r.user_id == uid)).map (·.button_id)

/-- `SELECT COUNT(*) FROM reactions WHERE post_id=? AND button_id=?`. -/
def count_reactions (db : DB) (pid : Nat) (bid : String) : Nat :=
  (db.reactions.filter (fun r => r.post_id == pid && r.button_id == bid)).length

/-- `get_all_reaction_counts` groups current rows by button id; consumers
read the dict with `.get(bid, 0)`, so the result is modelled as the total
count function. -/
def get_all_reaction_counts (db : DB) (pid : Nat) : String → Nat :=
  fun bid => count_reactions db pid bid

/-- `INSERT INTO post_history ...`. -/
def add_history (db : DB) (pid : Nat) (cid : Int) (mid : Nat) (success : Bool)
    (error : Option String) (now : String) : DB :=
  { db with history := db.history ++ [⟨pid, now, cid, mid, success, error⟩] }

/-- `SELECT user_id FROM users WHERE web_token=?` (NULL tokens never match). -/
def get_user_by_token (db : DB) (token : String) : Option Nat :=
  (db.users.find? (fun u => u.web_token == some token)).map (·.user_id)

/-- `duplicate_post`: re-insert every copied column of the fetched post; the
`reaction_buttons` kwarg is not passed, so the copy gets the `'[]'` default. -/
def duplicate_post (db : DB) (pid : Nat) (now : String) : Option Nat × DB :=
  match get_post db pid with
  | none => (none, db)
  | some p =>
    let r := add_post db
      { chat_id := p.chat_id
        owner_id := p.owner_id
        content := p.content
        media_type := p.media_type
        media_file_id := p.media_file_id
        schedule_type := some p.schedule_type
        scheduled_time := p.scheduled_time
        scheduled_date := p.scheduled_date
        days_of_week := p.days_of_week
        day_of_month := p.day_of_month
        pin_post := p.pin_post
        has_spoiler := p.has_spoiler
        has_participate := p.has_participate_button
        button_text := p.button_text
        url_buttons := p.url_buttons
        template_name := p.template_name } now
    (some r.1, r.2)

end Database

/-! ## Keyboards (keyboards.py) -/

/-- An inline keyboard button: a URL button or a callback button. -/
inductive Btn where
  | url (text : String) (link : String)
  | cb (text : String) (data : String)
deriving DecidableEq, Repr

/-- `post_kb`: URL buttons (one row each, when text and url are truthy), then
the reaction row, then the participate button; `None` when no rows remain. -/
def post_kb (post_id : Nat) (has_participate : Bool) (button_text : String)
    (url_buttons : List UrlButton) (participant_count : Nat)
    (reaction_buttons : List ReactionButton) (reaction_counts : String → Nat) :
    Option (List (List Btn)) :=
  let rows := url_buttons.foldl
    (fun acc b => if b.text != "" && b.url != "" then acc ++ [[Btn.url b.text b.url]] else acc) []
  let rows :=
    if reaction_buttons ≠ [] then
      let reaction_row := reaction_buttons.map (fun rb =>
        let count := reaction_counts rb.id
        let text := if count > 0 then rb.text ++ " (" ++ toString count ++ ")" else rb.text
        Btn.cb text ("react_" ++ toString post_id ++ "_" ++ rb.id))
      if reaction_row ≠ [] then rows ++ [reaction_row] else rows
    else rows
  let rows :=
    if has_participate then
      rows ++ [[Btn.cb (button_text ++ " (" ++ toString participant_count ++ ")")
                  ("part_" ++ toString post_id)]]
    else rows
  if rows ≠ [] then some rows else none

/-! ## Job Registry (APScheduler job store, keyed by job id)

Job ids are the strings `f"post_{pid}"` and `f"post_{pid}_{i}"`; the encoding
of (pid, optional index) into those strings is injective, so keys are
modelled structurally.  The job store is a mapping keyed by id; it is
modelled as the duplicate-free list of present keys, trigger details being
irrelevant to the claims. -/

inductive JobId where
  | base (pid : Nat)
  | idx (pid : Nat) (i : Nat)
deriving DecidableEq, Repr

/-- The post component of a job key. -/
def JobId.pidOf : JobId → Nat
  | base p => p
  | idx p _ => p

abbrev Sched := List JobId

/-- `scheduler.add_job(..., id=jid, replace_existing=True)`. -/
def add_job (j : JobId) (s : Sched) : Sched :=
  (s.filter (fun x => x ≠ j)) ++ [j]

/-- `try: scheduler.remove_job(jid) except: pass` for one key. -/
def remove_job_idx (pid i : Nat) (s : Sched) : Sched :=
  s.filter (fun j => j ≠ JobId.idx pid i)

/-- The removal loop `for suffix in range(10): ... remove_job(f"{jid}_{suffix}")`
of bot.py's `_register_single_job`. -/
def remove_jobs_range (pid : Nat) (s : Sched) : Sched :=
  (List.range 10).foldl (fun acc i => remove_job_idx pid i acc) s

/-- handlers/posts.py `_remove_job`: indices 0–9, then the bare key. -/
def remove_job (pid : Nat) (s : Sched) : Sched :=
  (remove_jobs_range pid s).filter (fun j => j ≠ JobId.base pid)

/-- CronTrigger accepts hour 0–23 and minute 0–59; anything else raises. -/
def cron_hm_valid (t : String) : Bool :=
  match parseHM t with
  | some (h, m) => decide (0 ≤ h ∧ h ≤ 23 ∧ 0 ≤ m ∧ m ≤ 59)
  | none => false

def isLeap (y : Int) : Bool :=
  (y % 4 == 0 && y % 100 != 0) || y % 400 == 0

def daysInMonth (y mo : Int) : Int :=
  if mo == 2 then (if isLeap y then 29 else 28)
  else if mo == 4 || mo == 6 || mo == 9 || mo == 11 then 30
  else 31

/-- Validity of `datetime(y, mo, d, h, m)`. -/
def datetimeValid (y mo d h m : Int) : Bool :=
  decide (1 ≤ y ∧ y ≤ 9999 ∧ 1 ≤ mo ∧ mo ≤ 12) &&
    decide (1 ≤ d ∧ d ≤ daysInMonth y mo) &&
    decide (0 ≤ h ∧ h ≤ 23 ∧ 0 ≤ m ∧ m ≤ 59)

/-- One iteration of the `once` branch: parse `HH:MM`, parse the date
`d.mo.y`, and build the datetime; any failure raises. -/
def once_valid (dateStr : String) (t : String) : Bool :=
  match parseHM t with
  | none => false
  | some (h, m) =>
    match pySplit dateStr '.' with
    | [ds, mos, ys] =>
      match pyInt? ds, pyInt? mos, pyInt? ys with
      | some d, some mo, some y => datetimeValid y mo d h m
      | _, _, _ => false
    | _ => false

/-- CronTrigger's `day_of_week` field on the CSV built by the day picker:
every component an integer 0–6. -/
def dow_valid (s : String) : Bool :=
  (pySplit s ',').all (fun c =>
    match pyInt? c with
    | some d => decide (0 ≤ d ∧ d ≤ 6)
    | none => false)

/-- CronTrigger's `day` field: 1–31. -/
def dom_valid (d : Int) : Bool :=
  decide (1 ≤ d ∧ d ≤ 31)

/-- The shared shape of the four registration loops
`for i, t in enumerate(tm.split(","))`: each iteration either validates and
adds the job keyed `(pid, i)` or raises, keeping the additions already made. -/
def register_loop (pid : Nat) (valid : String → Bool) :
    Nat → List String → Sched → Sched × Option String
  | _, [], s => (s, none)
  | i, t :: ts, s =>
    if valid t then register_loop pid valid (i + 1) ts (add_job (.idx pid i) s)
    else (s, some "ValueError")

/-- handlers/posts.py `_register_job`. -/
def register_job (db : DB) (pid : Nat) (s : Sched) : Sched × Option String :=
  match Database.get_post db pid with
  | none => (s, none)
  | some post =>
    if !post.is_active then (s, none)
    else
      let s1 := remove_job pid s
      let tm := post.scheduled_time
      let times := pySplit tm ','
      if post.schedule_type == "once" && truthyS post.scheduled_date && tm != "" then
        register_loop pid (once_valid (post.scheduled_date.getD "")) 0 times s1
      else if post.schedule_type == "daily" && tm != "" then
        register_loop pid cron_hm_valid 0 times s1
      else if post.schedule_type == "weekly" && tm != "" && truthyS post.days_of_week then
        register_loop pid (fun t => cron_hm_valid t && dow_valid (post.days_of_week.getD ""))
          0 times s1
      else if post.schedule_type == "monthly" && tm != "" && truthyI post.day_of_month then
        register_loop pid (fun t => cron_hm_valid t && dom_valid (post.day_of_month.getD 0))
          0 times s1
      else (s1, none)

/-- bot.py `SchedulerBot._register_single_job` (its removal loop covers
indices 0–9 only, not the bare key). -/
def register_single_job (db : DB) (pid : Nat) (s : Sched) : Sched × Option String :=
  match Database.get_post db pid with
  | none => (s, none)
  | some post =>
    if !post.is_active then (s, none)
    else
      let s1 := remove_jobs_range pid s
      let tm := post.scheduled_time
      let times := pySplit tm ','
      if post.schedule_type == "once" && truthyS post.scheduled_date && tm != "" then
        register_loop pid (once_valid (post.scheduled_date.getD "")) 0 times s1
      else if post.schedule_type == "daily" && tm != "" then
        register_loop pid cron_hm_valid 0 times s1
      else if post.schedule_type == "weekly" && tm != "" && truthyS post.days_of_week then
        register_loop pid (fun t => cron_hm_valid t && dow_valid (post.days_of_week.getD ""))
          0 times s1
      else if post.schedule_type == "monthly" && tm != "" && truthyI post.day_of_month then
        register_loop pid (fun t => cron_hm_valid t && dom_valid (post.day_of_month.getD 0))
          0 times s1
      else (s1, none)

/-! ## Bootstrap (bot.py `SchedulerBot._load_jobs`) -/

/-- The body of one loop iteration of `_load_jobs` (inside its try block). -/
def load_step (db : DB) (pid : Nat) (s : Sched) : Sched × Option String :=
  match Database.get_post db pid with
  | none => (s, none)
  | some p => if p.is_active then register_single_job db pid s else (s, none)

/-- The `for (pid,) in active_posts` loop with its per-post try/except; a
raised error is logged (the failing pid is appended to the log list) and the
loop continues. -/
def load_loop (db : DB) : List Nat → Sched × List Nat → Sched × List Nat
  | [], acc => acc
  | pid :: rest, (s, logs) =>
    match load_step db pid s with
    | (s2, some _) => load_loop db rest (s2, logs ++ [pid])
    | (s2, none) => load_loop db rest (s2, logs)

/-- `_load_jobs`: iterate over `get_active_posts`. -/
def load_jobs (db : DB) (s : Sched) : Sched × List Nat :=
  load_loop db (Database.get_active_posts db) (s, [])

/-! ## Dispatcher (bot.py `_execute_post`; handlers/posts.py `_execute_post`
is textually the same logic) -/

inductive SendKind where
  | message | photo | video | document
deriving DecidableEq, Repr

/-- One delivery-channel call: `bot.send_{message,photo,video,document}`. -/
structure SendReq where
  chat_id : Int
  kind : SendKind
  content : String
  media : Option String
  spoiler : Bool
  markup : Option (List (List Btn))
deriving DecidableEq, Repr

/-- Externally visible actions of one dispatch. -/
inductive Effect where
  | send (req : SendReq)
  | pin (chat : Int) (mid : Nat)
  | notify (uid : Nat) (pid : Nat) (errTrunc : String)
deriving DecidableEq, Repr

/-- bot.py `notify_error`: the direct message carries the post id and
`error[:200]`. -/
def notify_error (uid pid : Nat) (error : String) : Effect :=
  .notify uid pid (pyTake error 200)

/-- The media-kind dispatch of `_execute_post`: text (or missing file id) →
message; photo/video → captioned send with the spoiler flag; anything else →
document without spoiler. -/
def build_send_req (post : Post) (markup : Option (List (List Btn))) : SendReq :=
  if post.media_type == some "text" || !truthyS post.media_file_id then
    ⟨post.chat_id, .message, post.content, none, false, markup⟩
  else if post.media_type == some "photo" then
    ⟨post.chat_id, .photo, post.content, post.media_file_id, post.has_spoiler, markup⟩
  else if post.media_type == some "video" then
    ⟨post.chat_id, .video, post.content, post.media_file_id, post.has_spoiler, markup⟩
  else
    ⟨post.chat_id, .document, post.content, post.media_file_id, false, markup⟩

structure ExecResult where
  success : Bool
  db : DB
  effects : List Effect
deriving Repr

/-- `_execute_post(pid)`, with the delivery channel as an oracle `send`. -/
def execute_post (db : DB) (pid : Nat) (send : SendReq → Except String Nat)
    (now : String) : ExecResult :=
  match Database.get_post db pid with
  | none => ⟨false, db, []⟩
  | some post =>
    let count := Database.count_participants db post.post_id
    let reaction_counts := Database.get_all_reaction_counts db post.post_id
    let markup := post_kb post.post_id post.has_participate_button post.button_text
      post.url_buttons count post.reaction_buttons reaction_counts
    let req := build_send_req post markup
    match send req with
    | .ok mid =>
      let db1 := Database.update_post_sent db pid mid (post.execution_count + 1) now
      let db2 := Database.update_stats db1 post.owner_id 0 1 0 now
      let db3 := Database.add_history db2 pid post.chat_id mid true none now
      let pinEffs := if post.pin_post then [Effect.pin post.chat_id mid] else []
      let db4 :=
        if post.schedule_type == "once" then Database.update_post_is_active db3 pid false
        else db3
      ⟨true, db4, [Effect.send req] ++ pinEffs⟩
    | .error e =>
      let db1 := Database.update_stats db post.owner_id 0 0 1 now
      let db2 := Database.add_history db1 pid post.chat_id 0 false (some e) now
      ⟨false, db2, [Effect.send req, notify_error post.owner_id pid e]⟩

/-! ## Engagement handlers (handlers/posts.py) -/

inductive ReactOutcome where
  | added | changed | removed
deriving DecidableEq, Repr

/-- `cb_react`: toggle off on the same button, switch on a different one,
insert otherwise (`elif existing:` uses Python truthiness). -/
def cb_react (db : DB) (pid : Nat) (bid : String) (uid : Nat) (uname now : String) :
    ReactOutcome × DB :=
  let existing := Database.get_user_reaction db pid uid
  if existing == some bid then
    (.removed, (Database.remove_reaction db pid bid uid).2)
  else
    match existing with
    | some e =>
      if e != "" then
        let db1 := (Database.remove_reaction db pid e uid).2
        (.changed, (Database.add_reaction db1 pid bid uid uname now).2)
      else
        (.added, (Database.add_reaction db pid bid uid uname now).2)
    | none => (.added, (Database.add_reaction db pid bid uid uname now).2)

/-- `cb_participate`: attempt the insert, then report the live count. -/
def cb_participate (db : DB) (pid uid : Nat) (uname now : String) : Bool × Nat × DB :=
  let r := Database.add_participant db pid uid uname now
  (r.1, Database.count_participants r.2 pid, r.2)

/-- `cb_delete_post`: `db.delete_post(pid)` then `_remove_job(pid, scheduler)`. -/
def cb_delete_post (db : DB) (s : Sched) (pid : Nat) : DB × Sched :=
  (Database.delete_post db pid, remove_job pid s)

/-! ## Web panel (web.py) -/

/-- The partial JSON body accepted by `PUT /api/posts/{pid}`. -/
structure PutBody where
  content : Option String := none
  scheduled_time : Option String := none
  is_active : Option Int := none
deriving DecidableEq, Repr

inductive WebResp where
  | unauthorized | notFound | updated (pid : Nat)
deriving DecidableEq, Repr

namespace WebPanel

/-- `_auth`: resolve the token query parameter to a user id, 0 otherwise. -/
def auth (db : DB) (token : Option String) : Nat :=
  match token with
  | none => 0
  | some t => (Database.get_user_by_token db t).getD 0

/-- `WebPanel.update_post`: authorize, check ownership, apply the partial
update.  The handler holds no reference to the scheduler, so the job
registry is returned unchanged. -/
def update_post (db : DB) (sched : Sched) (token : Option String) (pid : Nat)
    (body : PutBody) : WebResp × DB × Sched :=
  let uid := auth db token
  if uid == 0 then (.unauthorized, db, sched)
  else
    match Database.get_post db pid with
    | none => (.notFound, db, sched)
    | some post =>
      if post.owner_id != uid then (.notFound, db, sched)
      else
        let db1 :=
          match body.content with
          | some c => Database.update_post_content db pid c
          | none => db
        let db2 :=
          match body.scheduled_time with
          | some t => Database.update_post_scheduled_time db1 pid t
          | none => db1
        let db3 :=
          match body.is_active with
          | some v => Database.update_post_is_active db2 pid (v ≠ 0)
          | none => db2
        (.updated pid, db3, sched)

end WebPanel

/-! ## Derived notions used to state the claims -/

/-- Number of comma-separated entries of `scheduled_time`. -/
def numTimes (p : Post) : Nat :=
  (pySplit p.scheduled_time ',').length

/-- Whether one of the four schedule branches of `_register_job` fires for
this post (its conditions verbatim). -/
def branchFires (p : Post) : Bool :=
  (p.schedule_type == "once" && truthyS p.scheduled_date && p.scheduled_time != "") ||
  (p.schedule_type == "daily" && p.scheduled_time != "") ||
  (p.schedule_type == "weekly" && p.scheduled_time != "" && truthyS p.days_of_week) ||
  (p.schedule_type == "monthly" && p.scheduled_time != "" && truthyI p.day_of_month)

/-- A job key removable by `_remove_job`: an indexed key with index below 10,
or the bare key. -/
def removable (pid : Nat) (j : JobId) : Prop :=
  j ∈ (List.range 10).map (JobId.idx pid) ∨ j = JobId.base pid

instance (pid : Nat) (j : JobId) : Decidable (removable pid j) := by
  unfold removable
  infer_instance

/-- Spec reading of the markup, URL rows: one row per URL button having both
a text and a url. -/
def specUrlRows (ubs : List UrlButton) : List (List Btn) :=
  (ubs.filter (fun b => b.text != "" && b.url != "")).map (fun b => [Btn.url b.text b.url])

/-- A reaction button label carries the count suffix exactly when the live
count is positive. -/
def reactionLabel (rb : ReactionButton) (c : Nat) : String :=
  if c > 0 then rb.text ++ " (" ++ toString c ++ ")" else rb.text

/-- Spec reading of the markup, reaction row: a single row of all configured
reaction buttons, present exactly when some are configured. -/
def specReactionRows (pid : Nat) (rbs : List ReactionButton) (counts : String → Nat) :
    List (List Btn) :=
  if rbs = [] then []
  else [rbs.map (fun rb =>
    Btn.cb (reactionLabel rb (counts rb.id)) ("react_" ++ toString pid ++ "_" ++ rb.id))]

/-- Spec reading of the markup, participate row: present exactly when the
option is enabled, labeled with the live participant count. -/
def specParticipateRow (pid : Nat) (haspart : Bool) (btext : String) (cnt : Nat) :
    List (List Btn) :=
  if haspart then
    [[Btn.cb (btext ++ " (" ++ toString cnt ++ ")") ("part_" ++ toString pid)]]
  else []

/-- The markup the dispatcher renders for a post, from the live counts. -/
def dispatch_markup (db : DB) (p : Post) : Option (List (List Btn)) :=
  post_kb p.post_id p.has_participate_button p.button_text p.url_buttons
    (Database.count_participants db p.post_id) p.reaction_buttons
    (Database.get_all_reaction_counts db p.post_id)

/-- The single delivery-channel request the dispatcher issues for a post. -/
def dispatch_req (db : DB) (p : Post) : SendReq :=
  build_send_req p (dispatch_markup db p)

/-! ## Concrete stores used by the counterexamples and witnesses -/

/-- A store holding one active daily post (id 7) with eleven scheduled
times, as enterable through the manual time input of the creation flow. -/
def dbElevenTimes : DB :=
  { posts := [{ post_id := 7, chat_id := -100, owner_id := 1,
                schedule_type := "daily",
                scheduled_time :=
                  "00:00,01:00,02:00,03:00,04:00,05:00,06:00,07:00,08:00,09:00,10:00" }] }

/-- The registry state after registering post 7 of `dbElevenTimes`. -/
def schedEleven : Sched :=
  (register_job dbElevenTimes 7 []).1

/-- `dbElevenTimes` after the owner edits the schedule down to one time. -/
def dbElevenTimesEdited : DB :=
  Database.update_post_scheduled_time dbElevenTimes 7 "09:00"

/-- A store holding one active daily post (id 4) with eleven scheduled times
and one participant, for the deletion claim. -/
def dbDel : DB :=
  { posts := [{ post_id := 4, chat_id := -5, owner_id := 1,
                schedule_type := "daily",
                scheduled_time :=
                  "00:05,01:05,02:05,03:05,04:05,05:05,06:05,07:05,08:05,09:05,10:05" }]
    participants := [⟨4, 77, "alice", "2024-01-01"⟩] }

/-- The registry state after registering post 4 of `dbDel`. -/
def schedDel : Sched :=
  (register_job dbDel 4 []).1

/-- A store with one active daily post (id 2) and participants of two
posts, for the deletion witness. -/
def dbDelSmall : DB :=
  { posts := [{ post_id := 2, chat_id := -6, owner_id := 1,
                schedule_type := "daily", scheduled_time := "08:00" }]
    participants := [⟨2, 7, "bob", "t"⟩, ⟨3, 8, "eve", "t"⟩] }

/-- A registry state holding one entry of post 2 and one of post 9. -/
def schedDelSmall : Sched :=
  [JobId.idx 2 0, JobId.idx 9 1]

/-- A store for the web-panel claim: one user with a web token and one
registered active daily post (id 5) owned by them. -/
def dbWeb : DB :=
  { users := [{ user_id := 1, web_token := some "tok" }]
    posts := [{ post_id := 5, chat_id := -9, owner_id := 1,
                schedule_type := "daily", scheduled_time := "09:00" }] }

/-- The registry state after registering post 5 of `dbWeb`. -/
def schedWeb : Sched :=
  (register_job dbWeb 5 []).1

/-- A store holding one `once` post (id 9) with a statistics row for its
owner, exercised by the dispatcher claims. -/
def dbDispatch : DB :=
  { posts := [{ post_id := 9, chat_id := 5, owner_id := 2, content := "hello",
                schedule_type := "once", scheduled_time := "10:00",
                scheduled_date := some "01.01.2030" }]
    stats := [{ user_id := 2, posts_failed := 3 }] }

/-- The post stored in `dbDispatch`. -/
def postDispatch : Post :=
  { post_id := 9, chat_id := 5, owner_id := 2, content := "hello",
    schedule_type := "once", scheduled_time := "10:00",
    scheduled_date := some "01.01.2030" }

/-- A store with one active daily post (id 1) with two times, for the
re-registration witness. -/
def dbTwoTimes : DB :=
  { posts := [{ post_id := 1, chat_id := -3, owner_id := 1,
                schedule_type := "daily", scheduled_time := "09:00,18:00" }] }

/-- The post stored in `dbTwoTimes`. -/
def postTwoTimes : Post :=
  { post_id := 1, chat_id := -3, owner_id := 1,
    schedule_type := "daily", scheduled_time := "09:00,18:00" }

/-- A store with a post (id 3) configured with reaction buttons, for the
duplication claim. -/
def dbDup : DB :=
  { posts := [{ post_id := 3, chat_id := -8, owner_id := 6, content := "promo",
                media_type := some "photo", media_file_id := some "F1",
                schedule_type := "daily", scheduled_time := "12:00",
                pin_post := true, has_spoiler := true, has_participate_button := true,
                button_text := "Join", url_buttons := [⟨"site", "https://x"⟩],
                reaction_buttons := [⟨"like", "👍", 0⟩, ⟨"dislike", "👎", 0⟩] }]
    next_post_id := 4 }

/-- The post stored in `dbDup`. -/
def postDup : Post :=
  { post_id := 3, chat_id := -8, owner_id := 6, content := "promo",
    media_type := some "photo", media_file_id := some "F1",
    schedule_type := "daily", scheduled_time := "12:00",
    pin_post := true, has_spoiler := true, has_participate_button := true,
    button_text := "Join", url_buttons := [⟨"site", "https://x"⟩],
    reaction_buttons := [⟨"like", "👍", 0⟩, ⟨"dislike", "👎", 0⟩] }

/-! ## General lemmas about the store operations -/

theorem get_post_id {db : DB} {pid : Nat} {p : Post}
    (hp : Database.get_post db pid = some p) : p.post_id = pid := by
  have := List.find?_some hp
  simpa using this

/-- C4: for every (post, user) pair not yet participating, the first
participate call inserts a Participant row and reports joined, the second
call is rejected by the uniqueness check and reports not joined, and the
participant count has grown by exactly one. -/
theorem c4_participate_twice (db : DB) (pid uid : Nat) (uname1 uname2 now1 now2 : String)
    (h : ∀ r ∈ db.participants, ¬(r.post_id = pid ∧ r.user_id = uid)) :
    (cb_participate db pid uid uname1 now1).1 = true ∧
    (cb_participate db pid uid uname1 now1).2.2.participants
      = db.participants ++ [⟨pid, uid, uname1, now1⟩] ∧
    (cb_participate (cb_participate db pid uid uname1 now1).2.2 pid uid uname2 now2).1 = false ∧
    Database.count_participants
        (cb_participate (cb_participate db pid uid uname1 now1).2.2 pid uid uname2 now2).2.2 pid
      = Database.count_participants db pid + 1 := by
  have hany : db.participants.any (fun r => r.post_id == pid && r.user_id == uid) = false := by
    rw [List.any_eq_false]
    intro r hr
    simpa using h r hr
  refine ⟨?_, ?_, ?_, ?_⟩ <;>
    simp [cb_participate, Database.add_participant, Database.count_participants, hany,
      List.any_append, List.filter_append]

/-- C3: for a user with no vote on the post (and a post nobody has reacted
to), reacting with b1, then b2, then b2 again yields outcomes added, changed
and removed: the first call inserts the vote, the second deletes the old
vote and inserts the new one, the third deletes it, leaving both buttons at
count 0. -/
theorem c3_react_cycle (db : DB) (pid uid : Nat) (b1 b2 uname now1 now2 now3 : String)
    (hclean : ∀ r ∈ db.reactions, r.post_id ≠ pid)
    (hb : b1 ≠ b2) (hb1 : b1 ≠ "") :
    (cb_react db pid b1 uid uname now1).1 = .added ∧
    (cb_react db pid b1 uid uname now1).2.reactions
      = db.reactions ++ [⟨pid, b1, uid, uname, now1⟩] ∧
    (cb_react (cb_react db pid b1 uid uname now1).2 pid b2 uid uname now2).1 = .changed ∧
    (cb_react (cb_react db pid b1 uid uname now1).2 pid b2 uid uname now2).2.reactions
      = db.reactions ++ [⟨pid, b2, uid, uname, now2⟩] ∧
    (cb_react (cb_react (cb_react db pid b1 uid uname now1).2 pid b2 uid uname now2).2
        pid b2 uid uname now3).1 = .removed ∧
    (cb_react (cb_react (cb_react db pid b1 uid uname now1).2 pid b2 uid uname now2).2
        pid b2 uid uname now3).2.reactions = db.reactions ∧
    Database.count_reactions
        (cb_react (cb_react (cb_react db pid b1 uid uname now1).2 pid b2 uid uname now2).2
          pid b2 uid uname now3).2 pid b1 = 0 ∧
    Database.count_reactions
        (cb_react (cb_react (cb_react db pid b1 uid uname now1).2 pid b2 uid uname now2).2
          pid b2 uid uname now3).2 pid b2 = 0 := by
  have hfind : db.reactions.find? (fun r => r.post_id == pid && r.user_id == uid) = none := by
    rw [List.find?_eq_none]
    intro r hr
    simp [hclean r hr]
  have hany : ∀ b : String,
      db.reactions.any (fun r => r.post_id == pid && r.button_id == b && r.user_id == uid)
        = false := by
    intro b
    rw [List.any_eq_false]
    intro r hr
    simp [hclean r hr]
  have hkeep : ∀ (b : String) (row : ReactionRow), row.post_id = pid → row.button_id = b →
      row.user_id = uid →
      (db.reactions ++ [row]).filter
          (fun r => !(r.post_id == pid && r.button_id == b && r.user_id == uid))
        = db.reactions := by
    intro b row h1 h2 h3
    rw [List.filter_append, List.filter_eq_self.mpr (fun r hr => by simp [hclean r hr])]
    simp [h1, h2, h3]
  have hfl : ∀ b : String,
      db.reactions.filter (fun r => r.post_id == pid && r.button_id == b) = [] := by
    intro b
    rw [List.filter_eq_nil_iff]
    intro r hr
    simp [hclean r hr]
  have hfind2 : ∀ (b : String) (row : ReactionRow), row.post_id = pid → row.button_id = b →
      row.user_id = uid →
      Database.get_user_reaction { db with reactions := db.reactions ++ [row] } pid uid
        = some b := by
    intro b row h1 h2 h3
    unfold Database.get_user_reaction
    show ((db.reactions ++ [row]).find? _).map _ = _
    rw [List.find?_append, hfind]
    simp [h1, h2, h3]
  have e1 : cb_react db pid b1 uid uname now1
      = (.added, { db with reactions := db.reactions ++ [⟨pid, b1, uid, uname, now1⟩] }) := by
    unfold cb_react Database.get_user_reaction Database.add_reaction
    rw [hfind]
    simp [hany]
  have e2 : cb_react { db with reactions := db.reactions ++ [⟨pid, b1, uid, uname, now1⟩] }
        pid b2 uid uname now2
      = (.changed, { db with reactions := db.reactions ++ [⟨pid, b2, uid, uname, now2⟩] }) := by
    have hrm : (Database.remove_reaction
        { db with reactions := db.reactions ++ [⟨pid, b1, uid, uname, now1⟩] } pid b1 uid).2
          = db := by
      unfold Database.remove_reaction
      simp only
      rw [hkeep b1 ⟨pid, b1, uid, uname, now1⟩ rfl rfl rfl]
    have hadd : Database.add_reaction db pid b2 uid uname now2
        = (true, { db with reactions := db.reactions ++ [⟨pid, b2, uid, uname, now2⟩] }) := by
      unfold Database.add_reaction
      simp [hany]
    unfold cb_react
    rw [hfind2 b1 ⟨pid, b1, uid, uname, now1⟩ rfl rfl rfl]
    simp [hb, hb1, hrm, hadd]
  have e3 : cb_react { db with reactions := db.reactions ++ [⟨pid, b2, uid, uname, now2⟩] }
        pid b2 uid uname now3
      = (.removed, db) := by
    have hrm : (Database.remove_reaction
        { db with reactions := db.reactions ++ [⟨pid, b2, uid, uname, now2⟩] } pid b2 uid).2
          = db := by
      unfold Database.remove_reaction
      simp only
      rw [hkeep b2 ⟨pid, b2, uid, uname, now2⟩ rfl rfl rfl]
    unfold cb_react
    rw [hfind2 b2 ⟨pid, b2, uid, uname, now2⟩ rfl rfl rfl]
    simp [hrm]
  rw [e1]
  rw [e2, e3]
  refine ⟨rfl, rfl, rfl, rfl, rfl, rfl, ?_, ?_⟩ <;>
    simp [Database.count_reactions, hfl]

theorem c4_witness :
    (cb_participate ({} : DB) 5 42 "alice" "t1").1 = true ∧
    (cb_participate (cb_participate ({} : DB) 5 42 "alice" "t1").2.2 5 42 "alice" "t2").1
      = false ∧
    Database.count_participants
        (cb_participate (cb_participate ({} : DB) 5 42 "alice" "t1").2.2 5 42 "alice" "t2").2.2 5
      = Database.count_participants ({} : DB) 5 + 1 := by
  have h := c4_participate_twice {} 5 42 "alice" "alice" "t1" "t2" (by simp)
  exact ⟨h.1, h.2.2.1, h.2.2.2⟩

theorem c3_witness :
    (cb_react ({} : DB) 5 "a" 42 "u" "t1").1 = .added ∧
    (cb_react (cb_react ({} : DB) 5 "a" 42 "u" "t1").2 5 "b" 42 "u" "t2").1 = .changed ∧
    (cb_react (cb_react (cb_react ({} : DB) 5 "a" 42 "u" "t1").2 5 "b" 42 "u" "t2").2
        5 "b" 42 "u" "t3").1 = .removed ∧
    Database.count_reactions
        (cb_react (cb_react (cb_react ({} : DB) 5 "a" 42 "u" "t1").2 5 "b" 42 "u" "t2").2
          5 "b" 42 "u" "t3").2 5 "a" = 0 ∧
    Database.count_reactions
        (cb_react (cb_react (cb_react ({} : DB) 5 "a" 42 "u" "t1").2 5 "b" 42 "u" "t2").2
          5 "b" 42 "u" "t3").2 5 "b" = 0 := by
  have h := c3_react_cycle {} 5 42 "a" "b" "u" "t1" "t2" "t3" (by simp) (by decide) (by decide)
  exact ⟨h.1, h.2.2.1, h.2.2.2.2.1, h.2.2.2.2.2.2.1, h.2.2.2.2.2.2.2⟩

/-! ## Lookup lemmas for the dispatcher proofs -/

theorem get_post_modifyPost (db : DB) (pid : Nat) (f : Post → Post)
    (hf : ∀ p, (f p).post_id = p.post_id) (x : Nat) :
    Database.get_post (Database.modifyPost db pid f) x
      = (Database.get_post db x).map (fun p => if p.post_id == pid then f p else p) := by
  unfold Database.get_post Database.modifyPost
  have hpred : ((fun p : Post => p.post_id == x)
        ∘ (fun p => if p.post_id == pid then f p else p))
      = (fun p : Post => p.post_id == x) := by
    funext p
    by_cases h : p.post_id = pid <;> simp [h, hf]
  rw [List.find?_map, hpred]

theorem get_post_update_post_is_active (db : DB) (pid : Nat) (v : Bool) (x : Nat) :
    Database.get_post (Database.update_post_is_active db pid v) x
      = (Database.get_post db x).map
          (fun p => if p.post_id == pid then { p with is_active := v } else p) :=
  get_post_modifyPost db pid (fun p => { p with is_active := v }) (fun _ => rfl) x

theorem get_post_update_post_sent (db : DB) (pid mid ec : Nat) (now : String) (x : Nat) :
    Database.get_post (Database.update_post_sent db pid mid ec now) x
      = (Database.get_post db x).map
          (fun p => if p.post_id == pid then
            { p with sent_message_id := some mid, execution_count := ec,
                     last_sent_at := some now }
            else p) :=
  get_post_modifyPost db pid
    (fun p => { p with sent_message_id := some mid, execution_count := ec,
                       last_sent_at := some now })
    (fun _ => rfl) x

theorem get_post_update_stats (db : DB) (uid c s f : Nat) (now : String) (x : Nat) :
    Database.get_post (Database.update_stats db uid c s f now) x
      = Database.get_post db x := rfl

theorem get_post_add_history (db : DB) (pid : Nat) (cid : Int) (mid : Nat) (success : Bool)
    (error : Option String) (now : String) (x : Nat) :
    Database.get_post (Database.add_history db pid cid mid success error now) x
      = Database.get_post db x := rfl

theorem get_stats_id {db : DB} {uid : Nat} {st : StatsRow}
    (h : Database.get_stats db uid = some st) : st.user_id = uid := by
  have := List.find?_some h
  simpa using this

theorem get_stats_update_stats (db : DB) (uid c s f : Nat) (now : String) (x : Nat) :
    Database.get_stats (Database.update_stats db uid c s f now) x
      = (Database.get_stats db x).map
          (fun r => if r.user_id == uid then
            { r with posts_created := r.posts_created + c, posts_sent := r.posts_sent + s,
                     posts_failed := r.posts_failed + f, last_updated := now }
            else r) := by
  unfold Database.get_stats Database.update_stats
  have hpred : ((fun r : StatsRow => r.user_id == x)
        ∘ (fun r : StatsRow => if r.user_id == uid then
            { r with posts_created := r.posts_created + c, posts_sent := r.posts_sent + s,
                     posts_failed := r.posts_failed + f, last_updated := now }
            else r))
      = (fun r : StatsRow => r.user_id == x) := by
    funext r
    by_cases h : r.user_id = uid <;> simp [h]
  rw [List.find?_map, hpred]

theorem get_stats_add_history (db : DB) (pid : Nat) (cid : Int) (mid : Nat) (success : Bool)
    (error : Option String) (now : String) (x : Nat) :
    Database.get_stats (Database.add_history db pid cid mid success error now) x
      = Database.get_stats db x := rfl

theorem get_stats_modifyPost (db : DB) (pid : Nat) (f : Post → Post) (x : Nat) :
    Database.get_stats (Database.modifyPost db pid f) x = Database.get_stats db x := rfl

/-- C2: dispatching a `once` post deactivates it after a successful
delivery, while a failed delivery leaves `is_active` unchanged. -/
theorem c2_once_deactivation (db : DB) (pid : Nat) (p : Post) (now : String) (mid : Nat)
    (e : String) (sendOk sendFail : SendReq → Except String Nat)
    (hp : Database.get_post db pid = some p) (hst : p.schedule_type = "once")
    (hok : ∀ q, sendOk q = .ok mid) (hfail : ∀ q, sendFail q = .error e) :
    (execute_post db pid sendOk now).success = true ∧
    (Database.get_post (execute_post db pid sendOk now).db pid).map (·.is_active)
      = some false ∧
    (execute_post db pid sendFail now).success = false ∧
    (Database.get_post (execute_post db pid sendFail now).db pid).map (·.is_active)
      = some p.is_active := by
  have hpid : p.post_id = pid := get_post_id hp
  refine ⟨?_, ?_, ?_, ?_⟩ <;>
    simp [execute_post, hp, hok, hfail, hst, Database.update_post_is_active,
      Database.update_post_sent, get_post_modifyPost, get_post_update_stats,
      get_post_add_history, hpid]

theorem c2_witness :
    (execute_post dbDispatch 9 (fun _ => .ok 33) "T").success = true ∧
    (Database.get_post (execute_post dbDispatch 9 (fun _ => .ok 33) "T").db 9).map (·.is_active)
      = some false ∧
    (execute_post dbDispatch 9 (fun _ => .error "boom") "T").success = false ∧
    (Database.get_post (execute_post dbDispatch 9 (fun _ => .error "boom") "T").db 9).map
        (·.is_active)
      = some postDispatch.is_active := by
  exact c2_once_deactivation dbDispatch 9 postDispatch "T" 33 "boom" _ _ rfl rfl
    (fun _ => rfl) (fun _ => rfl)

/-- C5: on any delivery error the dispatcher increments the owner's
posts_failed by one (leaving posts_sent alone), appends exactly one failure
History row carrying the error text, emits exactly one send attempt (no
retry) followed by one owner notification carrying the post id and the
200-character-truncated error text, and leaves every post row — in
particular the is_active flag — unchanged. -/
theorem c5_failure_effects (db : DB) (pid : Nat) (p : Post) (now e : String) (st : StatsRow)
    (send : SendReq → Except String Nat)
    (hp : Database.get_post db pid = some p)
    (hstats : Database.get_stats db p.owner_id = some st)
    (hfail : ∀ q, send q = .error e) :
    (execute_post db pid send now).success = false ∧
    (Database.get_stats (execute_post db pid send now).db p.owner_id).map (·.posts_failed)
      = some (st.posts_failed + 1) ∧
    (Database.get_stats (execute_post db pid send now).db p.owner_id).map (·.posts_sent)
      = some st.posts_sent ∧
    (execute_post db pid send now).db.history
      = db.history ++ [⟨pid, now, p.chat_id, 0, false, some e⟩] ∧
    (execute_post db pid send now).effects
      = [.send (dispatch_req db p), .notify p.owner_id pid (pyTake e 200)] ∧
    (Database.get_post (execute_post db pid send now).db pid).map (·.is_active)
      = some p.is_active ∧
    (execute_post db pid send now).db.posts = db.posts := by
  have hsid : st.user_id = p.owner_id := get_stats_id hstats
  refine ⟨?_, ?_, ?_, ?_, ?_, ?_, ?_⟩
  · simp [execute_post, hp, hfail]
  · simp only [execute_post, hp, hfail]
    rw [get_stats_add_history, get_stats_update_stats, hstats]
    simp [hsid]
  · simp only [execute_post, hp, hfail]
    rw [get_stats_add_history, get_stats_update_stats, hstats]
    simp [hsid]
  · simp [execute_post, hp, hfail, Database.add_history, Database.update_stats]
  · simp [execute_post, hp, hfail, dispatch_req, dispatch_markup, notify_error]
  · simp only [execute_post, hp, hfail]
    rw [get_post_add_history, get_post_update_stats, hp]
    rfl
  · simp [execute_post, hp, hfail, Database.add_history, Database.update_stats]

theorem c5_witness :
    (execute_post dbDispatch 9 (fun _ => .error "boom") "T").success = false ∧
    (Database.get_stats (execute_post dbDispatch 9 (fun _ => .error "boom") "T").db 2).map
        (·.posts_failed) = some 4 ∧
    (execute_post dbDispatch 9 (fun _ => .error "boom") "T").db.history
      = dbDispatch.history ++ [⟨9, "T", 5, 0, false, some "boom"⟩] ∧
    (execute_post dbDispatch 9 (fun _ => .error "boom") "T").effects
      = [.send (dispatch_req dbDispatch postDispatch), .notify 2 9 (pyTake "boom" 200)] := by
  have h := c5_failure_effects dbDispatch 9 postDispatch "T" "boom" { user_id := 2, posts_failed := 3 }
    _ rfl rfl (fun _ => rfl)
  exact ⟨h.1, h.2.1, h.2.2.2.1, h.2.2.2.2.1⟩

/-- C10: duplicating an existing post creates a new post (under the fresh
AUTOINCREMENT id) whose content, media, schedule fields, pin/spoiler/
participate options and URL buttons equal the original's, but whose
reaction-button list is empty even when the original has reaction buttons
configured. -/
theorem c10_duplicate_drops_reactions (db : DB) (pid : Nat) (now : String) (p : Post)
    (hp : Database.get_post db pid = some p)
    (hfresh : ∀ q ∈ db.posts, q.post_id < db.next_post_id)
    (hst : p.schedule_type ≠ "") (hbt : p.button_text ≠ "") :
    (Database.duplicate_post db pid now).1 = some db.next_post_id ∧
    (Database.get_post (Database.duplicate_post db pid now).2 db.next_post_id).map (·.content)
      = some p.content ∧
    (Database.get_post (Database.duplicate_post db pid now).2 db.next_post_id).map (·.media_type)
      = some p.media_type ∧
    (Database.get_post (Database.duplicate_post db pid now).2 db.next_post_id).map
        (·.media_file_id) = some p.media_file_id ∧
    (Database.get_post (Database.duplicate_post db pid now).2 db.next_post_id).map
        (·.schedule_type) = some p.schedule_type ∧
    (Database.get_post (Database.duplicate_post db pid now).2 db.next_post_id).map
        (·.scheduled_time) = some p.scheduled_time ∧
    (Database.get_post (Database.duplicate_post db pid now).2 db.next_post_id).map
        (·.scheduled_date) = some p.scheduled_date ∧
    (Database.get_post (Database.duplicate_post db pid now).2 db.next_post_id).map
        (·.days_of_week) = some p.days_of_week ∧
    (Database.get_post (Database.duplicate_post db pid now).2 db.next_post_id).map
        (·.day_of_month) = some p.day_of_month ∧
    (Database.get_post (Database.duplicate_post db pid now).2 db.next_post_id).map (·.pin_post)
      = some p.pin_post ∧
    (Database.get_post (Database.duplicate_post db pid now).2 db.next_post_id).map (·.has_spoiler)
      = some p.has_spoiler ∧
    (Database.get_post (Database.duplicate_post db pid now).2 db.next_post_id).map
        (·.has_participate_button) = some p.has_participate_button ∧
    (Database.get_post (Database.duplicate_post db pid now).2 db.next_post_id).map (·.button_text)
      = some p.button_text ∧
    (Database.get_post (Database.duplicate_post db pid now).2 db.next_post_id).map (·.url_buttons)
      = some p.url_buttons ∧
    (Database.get_post (Database.duplicate_post db pid now).2 db.next_post_id).map
        (·.reaction_buttons) = some ([] : List ReactionButton) := by
  have h1 : db.posts.find? (fun q => q.post_id == db.next_post_id) = none :=
    List.find?_eq_none.mpr (fun q hq => by simp [Nat.ne_of_lt (hfresh q hq)])
  have h0 : db.posts.find? (fun q => q.post_id == pid) = some p := hp
  refine ⟨?_, ?_, ?_, ?_, ?_, ?_, ?_, ?_, ?_, ?_, ?_, ?_, ?_, ?_, ?_⟩ <;>
    simp [Database.duplicate_post, Database.add_post, Database.get_post,
      List.find?_append, h0, h1, Database.mkPost, normS, hst, hbt]

theorem c10_witness :
    (Database.duplicate_post dbDup 3 "T").1 = some 4 ∧
    (Database.get_post (Database.duplicate_post dbDup 3 "T").2 4).map (·.content)
      = some postDup.content ∧
    (Database.get_post (Database.duplicate_post dbDup 3 "T").2 4).map (·.url_buttons)
      = some postDup.url_buttons ∧
    (Database.get_post (Database.duplicate_post dbDup 3 "T").2 4).map (·.reaction_buttons)
      = some ([] : List ReactionButton) ∧
    postDup.reaction_buttons ≠ [] := by
  have h := c10_duplicate_drops_reactions dbDup 3 "T" postDup rfl
    (by decide) (by decide) (by decide)
  exact ⟨h.1, h.2.1, h.2.2.2.2.2.2.2.2.2.2.2.2.2.1, h.2.2.2.2.2.2.2.2.2.2.2.2.2.2, by decide⟩

/-- The URL-button accumulation loop of `post_kb` appends one row per URL
button that has both a text and a url. -/
theorem post_kb_url_foldl (ubs : List UrlButton) (acc : List (List Btn)) :
    ubs.foldl
        (fun acc b => if b.text != "" && b.url != "" then acc ++ [[Btn.url b.text b.url]] else acc)
        acc
      = acc ++ specUrlRows ubs := by
  induction ubs generalizing acc with
  | nil => simp [specUrlRows]
  | cons b t ih =>
    rw [List.foldl_cons]
    by_cases h : (b.text != "" && b.url != "") = true
    · rw [if_pos h, ih]
      simp [specUrlRows, List.filter_cons, h, List.append_assoc]
    · rw [if_neg h, ih]
      simp only [Bool.not_eq_true] at h
      simp [specUrlRows, List.filter_cons, h]

/-- C7: the rendered markup is exactly the URL rows (one per button with
both text and url), then the reaction row (labels carrying the count suffix
exactly when the live count is positive), then the participate button
labelled with the live participant count; it is `none` exactly when no
buttons apply. -/
theorem c7_post_kb_structure (pid : Nat) (haspart : Bool) (btext : String)
    (ubs : List UrlButton) (cnt : Nat) (rbs : List ReactionButton) (counts : String → Nat) :
    (post_kb pid haspart btext ubs cnt rbs counts
      = if specUrlRows ubs ++ specReactionRows pid rbs counts
            ++ specParticipateRow pid haspart btext cnt = [] then none
        else some (specUrlRows ubs ++ specReactionRows pid rbs counts
            ++ specParticipateRow pid haspart btext cnt)) ∧
    (post_kb pid haspart btext ubs cnt rbs counts = none
      ↔ specUrlRows ubs = [] ∧ rbs = [] ∧ haspart = false) := by
  have hmain : post_kb pid haspart btext ubs cnt rbs counts
      = if specUrlRows ubs ++ specReactionRows pid rbs counts
            ++ specParticipateRow pid haspart btext cnt = [] then none
        else some (specUrlRows ubs ++ specReactionRows pid rbs counts
            ++ specParticipateRow pid haspart btext cnt) := by
    unfold post_kb
    rw [post_kb_url_foldl ubs [], List.nil_append]
    by_cases hr : rbs = [] <;> by_cases hpt : haspart <;>
      simp [hr, hpt, specReactionRows, specParticipateRow, reactionLabel, ite_not]
  refine ⟨hmain, ?_⟩
  rw [hmain]
  by_cases hu : specUrlRows ubs = [] <;> by_cases hr : rbs = [] <;> by_cases hpt : haspart <;>
    simp [hu, hr, hpt, specReactionRows, specParticipateRow]

/-! ## Job-registry lemmas -/

theorem mem_add_job {y j : JobId} {s : Sched} :
    y ∈ add_job j s ↔ (y ∈ s ∧ y ≠ j) ∨ y = j := by
  simp [add_job, List.mem_filter, List.mem_append]

theorem nodup_add_job {j : JobId} {s : Sched} (h : s.Nodup) : (add_job j s).Nodup := by
  unfold add_job
  refine List.Nodup.append (h.filter _) (List.nodup_singleton j) ?_
  intro x hx hx'
  simp [List.mem_filter] at hx
  simp at hx'
  exact hx.2 hx'

theorem mem_foldl_remove_idx (pid : Nat) (l : List Nat) (s : Sched) (j : JobId) :
    j ∈ l.foldl (fun acc i => remove_job_idx pid i acc) s
      ↔ j ∈ s ∧ ∀ i ∈ l, j ≠ JobId.idx pid i := by
  induction l generalizing s with
  | nil => simp
  | cons a t ih =>
    rw [List.foldl_cons, ih]
    simp only [remove_job_idx, List.mem_filter, List.mem_cons, decide_not, Bool.not_eq_true',
      decide_eq_false_iff_not]
    constructor
    · rintro ⟨⟨hs, hne⟩, hall⟩
      exact ⟨hs, fun i hi => by rcases hi with rfl | hi; exact hne; exact hall i hi⟩
    · rintro ⟨hs, hall⟩
      exact ⟨⟨hs, hall a (Or.inl rfl)⟩, fun i hi => hall i (Or.inr hi)⟩

theorem nodup_foldl_remove_idx (pid : Nat) (l : List Nat) {s : Sched} (h : s.Nodup) :
    (l.foldl (fun acc i => remove_job_idx pid i acc) s).Nodup := by
  induction l generalizing s with
  | nil => exact h
  | cons a t ih => exact ih (h.filter _)

theorem mem_remove_jobs_range (pid : Nat) (s : Sched) (j : JobId) :
    j ∈ remove_jobs_range pid s ↔ j ∈ s ∧ ∀ i < 10, j ≠ JobId.idx pid i := by
  unfold remove_jobs_range
  rw [mem_foldl_remove_idx]
  simp [List.mem_range]

theorem mem_remove_job (pid : Nat) (s : Sched) (j : JobId) :
    j ∈ remove_job pid s
      ↔ j ∈ s ∧ (∀ i < 10, j ≠ JobId.idx pid i) ∧ j ≠ JobId.base pid := by
  unfold remove_job
  rw [List.mem_filter, mem_remove_jobs_range]
  simp [and_assoc]

theorem nodup_remove_job (pid : Nat) {s : Sched} (h : s.Nodup) : (remove_job pid s).Nodup :=
  (nodup_foldl_remove_idx pid (List.range 10) h).filter _

theorem nodup_register_loop (pid : Nat) (valid : String → Bool) :
    ∀ (ts : List String) (i : Nat) (s : Sched), s.Nodup →
      ((register_loop pid valid i ts s).1).Nodup := by
  intro ts
  induction ts with
  | nil => intro i s h; exact h
  | cons t rest ih =>
    intro i s h
    simp only [register_loop]
    split
    · exact ih (i + 1) _ (nodup_add_job h)
    · exact h

theorem register_loop_snd (pid : Nat) (valid : String → Bool) :
    ∀ (ts : List String) (i : Nat) (s : Sched),
      (register_loop pid valid i ts s).2
        = if ts.all valid then none else some "ValueError" := by
  intro ts
  induction ts with
  | nil => intro i s; simp [register_loop]
  | cons t rest ih =>
    intro i s
    by_cases hv : valid t = true <;> simp [register_loop, hv, ih]

theorem mem_register_loop_ok (pid : Nat) (valid : String → Bool) :
    ∀ (ts : List String) (i : Nat) (s : Sched), ts.all valid = true → ∀ j : JobId,
      (j ∈ (register_loop pid valid i ts s).1
        ↔ (j ∈ s ∧ ∀ k, k < ts.length → j ≠ JobId.idx pid (i + k))
          ∨ ∃ k, k < ts.length ∧ j = JobId.idx pid (i + k)) := by
  intro ts
  induction ts with
  | nil =>
    intro i s _ j
    simp [register_loop]
  | cons t rest ih =>
    intro i s hall j
    rw [List.all_cons, Bool.and_eq_true] at hall
    simp only [register_loop, hall.1, if_true]
    rw [ih (i + 1) _ hall.2 j, mem_add_job]
    constructor
    · rintro (⟨hmem, hne⟩ | ⟨k, hk, rfl⟩)
      · rcases hmem with ⟨hs, hji⟩ | rfl
        · left
          refine ⟨hs, fun k hk => ?_⟩
          cases k with
          | zero => simpa using hji
          | succ k' =>
            have := hne k' (by simpa using hk)
            rw [show i + (k' + 1) = (i + 1) + k' by omega]
            exact this
        · right
          exact ⟨0, by simp, by rw [Nat.add_zero]⟩
      · right
        exact ⟨k + 1, by simp only [List.length_cons]; omega,
          by rw [show i + (k + 1) = (i + 1) + k by omega]⟩
    · rintro (⟨hs, hall2⟩ | ⟨k, hk, rfl⟩)
      · left
        refine ⟨Or.inl ⟨hs, ?_⟩, fun k hk => ?_⟩
        · have := hall2 0 (by simp)
          simpa using this
        · have := hall2 (k + 1) (by simp only [List.length_cons]; omega)
          rw [show i + (k + 1) = (i + 1) + k by omega] at this
          exact this
      · cases k with
        | zero =>
          left
          rw [Nat.add_zero]
          refine ⟨Or.inr rfl, fun k' hk' => ?_⟩
          simp only [ne_eq, JobId.idx.injEq, not_and]
          intro _
          omega
        | succ k' =>
          right
          refine ⟨k', ?_, by rw [show (i + 1) + k' = i + (k' + 1) by omega]⟩
          simp only [List.length_cons] at hk
          omega

/-- Shared tail of the four registration branches: after the removal pass
(which leaves no entries of the post, given that all of its entries were
removable) a successful loop registers exactly the indexed keys 0..n-1. -/
theorem register_tail_char (pid : Nat) (valid : String → Bool) (times : List String) (s1 : Sched)
    (h1nodup : s1.Nodup) (h1pid : ∀ j ∈ s1, JobId.pidOf j ≠ pid)
    (hsucc : (register_loop pid valid 0 times s1).2 = none) :
    ((register_loop pid valid 0 times s1).1).Nodup ∧
    ∀ j : JobId, (j ∈ (register_loop pid valid 0 times s1).1 ∧ JobId.pidOf j = pid)
      ↔ j ∈ (List.range times.length).map (JobId.idx pid) := by
  have hall : times.all valid = true := by
    by_cases h : times.all valid = true
    · exact h
    · rw [register_loop_snd, if_neg h] at hsucc
      simp at hsucc
  refine ⟨nodup_register_loop pid valid times 0 s1 h1nodup, fun j => ?_⟩
  rw [show j ∈ (register_loop pid valid 0 times s1).1
      ↔ _ from mem_register_loop_ok pid valid times 0 s1 hall j]
  constructor
  · rintro ⟨⟨hs, _⟩ | ⟨k, hk, rfl⟩, hpid⟩
    · exact absurd hpid (h1pid j hs)
    · simp only [List.mem_map, List.mem_range]
      exact ⟨k, hk, by rw [Nat.zero_add]⟩
  · intro hj
    simp only [List.mem_map, List.mem_range] at hj
    rcases hj with ⟨k, hk, rfl⟩
    exact ⟨Or.inr ⟨k, hk, by rw [Nat.zero_add]⟩, rfl⟩

/-- C1 (amended): for an active post, a successful `_register_job` leaves —
among the keys of the post — exactly one fresh entry per comma-separated
time, with no duplicate keys and no surviving previous entry, provided
every previous entry of the post has time-index below 10 (or is the bare
key): the removal pass only covers indices 0–9. -/
theorem c1_register_replaces (db : DB) (pid : Nat) (p : Post) (s : Sched)
    (hp : Database.get_post db pid = some p) (ha : p.is_active = true)
    (hold : ∀ j ∈ s, JobId.pidOf j = pid → removable pid j)
    (hnd : s.Nodup)
    (hsucc : (register_job db pid s).2 = none) :
    ((register_job db pid s).1).Nodup ∧
    ∀ j : JobId, (j ∈ (register_job db pid s).1 ∧ JobId.pidOf j = pid)
      ↔ (branchFires p = true ∧ j ∈ (List.range (numTimes p)).map (JobId.idx pid)) := by
  have hs1nodup : (remove_job pid s).Nodup := nodup_remove_job pid hnd
  have hs1pid : ∀ j ∈ remove_job pid s, JobId.pidOf j ≠ pid := by
    intro j hj hpid
    rw [mem_remove_job] at hj
    rcases hold j hj.1 hpid with hr | rfl
    · simp only [List.mem_map, List.mem_range] at hr
      rcases hr with ⟨i, hi, rfl⟩
      exact hj.2.1 i hi rfl
    · exact hj.2.2 rfl
  by_cases hc1 : (p.schedule_type == "once" && truthyS p.scheduled_date
      && p.scheduled_time != "") = true
  · have hred : register_job db pid s
        = register_loop pid (once_valid (p.scheduled_date.getD ""))
            0 (pySplit p.scheduled_time ',') (remove_job pid s) := by
      simp only [register_job, hp, ha, Bool.not_true, Bool.false_eq_true, if_false, hc1, if_true]
    rw [hred] at hsucc ⊢
    have h := register_tail_char pid _ _ _ hs1nodup hs1pid hsucc
    refine ⟨h.1, fun j => ?_⟩
    rw [h.2 j]
    have hbf : branchFires p = true := by simp [branchFires, hc1]
    simp [hbf, numTimes]
  · by_cases hc2 : (p.schedule_type == "daily" && p.scheduled_time != "") = true
    · have hred : register_job db pid s
          = register_loop pid cron_hm_valid 0 (pySplit p.scheduled_time ',')
              (remove_job pid s) := by
        simp only [register_job, hp, ha, Bool.not_true, Bool.false_eq_true, if_false,
          hc1, hc2, if_true]
      rw [hred] at hsucc ⊢
      have h := register_tail_char pid _ _ _ hs1nodup hs1pid hsucc
      refine ⟨h.1, fun j => ?_⟩
      rw [h.2 j]
      have hbf : branchFires p = true := by simp [branchFires, hc2]
      simp [hbf, numTimes]
    · by_cases hc3 : (p.schedule_type == "weekly" && p.scheduled_time != ""
          && truthyS p.days_of_week) = true
      · have hred : register_job db pid s
            = register_loop pid
                (fun t => cron_hm_valid t && dow_valid (p.days_of_week.getD ""))
                0 (pySplit p.scheduled_time ',') (remove_job pid s) := by
          simp only [register_job, hp, ha, Bool.not_true, Bool.false_eq_true, if_false,
            hc1, hc2, hc3, if_true]
        rw [hred] at hsucc ⊢
        have h := register_tail_char pid _ _ _ hs1nodup hs1pid hsucc
        refine ⟨h.1, fun j => ?_⟩
        rw [h.2 j]
        have hbf : branchFires p = true := by simp [branchFires, hc3]
        simp [hbf, numTimes]
      · by_cases hc4 : (p.schedule_type == "monthly" && p.scheduled_time != ""
            && truthyI p.day_of_month) = true
        · have hred : register_job db pid s
              = register_loop pid
                  (fun t => cron_hm_valid t && dom_valid (p.day_of_month.getD 0))
                  0 (pySplit p.scheduled_time ',') (remove_job pid s) := by
            simp only [register_job, hp, ha, Bool.not_true, Bool.false_eq_true, if_false,
              hc1, hc2, hc3, hc4, if_true]
          rw [hred] at hsucc ⊢
          have h := register_tail_char pid _ _ _ hs1nodup hs1pid hsucc
          refine ⟨h.1, fun j => ?_⟩
          rw [h.2 j]
          have hbf : branchFires p = true := by simp [branchFires, hc4]
          simp [hbf, numTimes]
        · have hred : register_job db pid s = (remove_job pid s, none) := by
            simp only [register_job, hp, ha, Bool.not_true, Bool.false_eq_true, if_false,
              hc1, hc2, hc3, hc4]
          rw [hred]
          have hbf : branchFires p = false := by
            simp only [branchFires, Bool.or_eq_false_iff]
            simp only [Bool.not_eq_true] at hc1 hc2 hc3 hc4
            exact ⟨⟨⟨hc1, hc2⟩, hc3⟩, hc4⟩
          refine ⟨hs1nodup, fun j => ?_⟩
          simp only [hbf, Bool.false_eq_true, false_and, iff_false, not_and]
          intro hj
          exact hs1pid j hj

theorem c1_witness :
    JobId.idx 1 1 ∈ (register_job dbTwoTimes 1 [JobId.idx 1 0, JobId.base 1]).1 ∧
    JobId.base 1 ∉ (register_job dbTwoTimes 1 [JobId.idx 1 0, JobId.base 1]).1 ∧
    ((register_job dbTwoTimes 1 [JobId.idx 1 0, JobId.base 1]).1).Nodup := by
  have h := c1_register_replaces dbTwoTimes 1 postTwoTimes [JobId.idx 1 0, JobId.base 1]
    rfl rfl (by decide) (by decide) (by decide)
  refine ⟨((h.2 _).mpr (by decide)).1, fun hmem => ?_, h.1⟩
  have := (h.2 (JobId.base 1)).mp ⟨hmem, rfl⟩
  exact absurd this (by decide)

/-- C1 counterexample: an active daily post with eleven comma-separated
times (enterable through the manual time input) is registered, then edited
down to a single time and re-registered; the registration succeeds, but the
previous entry with index 10 survives next to the fresh entry — the removal
pass stops at index 9, so a previous entry does survive re-registration. -/
theorem c1_counterexample :
    (Database.get_post dbElevenTimesEdited 7).map (·.is_active) = some true ∧
    JobId.idx 7 10 ∈ schedEleven ∧
    (register_job dbElevenTimesEdited 7 schedEleven).2 = none ∧
    JobId.idx 7 10 ∈ (register_job dbElevenTimesEdited 7 schedEleven).1 ∧
    JobId.idx 7 0 ∈ (register_job dbElevenTimesEdited 7 schedEleven).1 := by
  decide

/-- C6 (amended): deleting a post removes its row and all of its
Participant rows (so `count_participants` returns 0), and removes all of
its Job Registry entries with time-index below 10 plus the bare key —
hence, when every entry of the post has index below 10, no entry of the
post survives. -/
theorem c6_delete_post (db : DB) (s : Sched) (pid : Nat)
    (hold : ∀ j ∈ s, JobId.pidOf j = pid → removable pid j) :
    Database.get_post (cb_delete_post db s pid).1 pid = none ∧
    (∀ r ∈ (cb_delete_post db s pid).1.participants, r.post_id ≠ pid) ∧
    Database.count_participants (cb_delete_post db s pid).1 pid = 0 ∧
    (∀ j ∈ (cb_delete_post db s pid).2, JobId.pidOf j ≠ pid) := by
  refine ⟨?_, ?_, ?_, ?_⟩
  · apply List.find?_eq_none.mpr
    intro q hq
    simp only [cb_delete_post, Database.delete_post, List.mem_filter] at hq
    simpa using hq.2
  · intro r hr
    simp only [cb_delete_post, Database.delete_post, List.mem_filter] at hr
    simpa using hr.2
  · simp only [cb_delete_post, Database.delete_post, Database.count_participants,
      List.filter_filter]
    rw [List.length_eq_zero, List.filter_eq_nil_iff]
    intro r _
    by_cases h : r.post_id = pid <;> simp [h]
  · intro j hj hpid
    simp only [cb_delete_post] at hj
    rw [mem_remove_job] at hj
    rcases hold j hj.1 hpid with hr | rfl
    · simp only [List.mem_map, List.mem_range] at hr
      rcases hr with ⟨i, hi, rfl⟩
      exact hj.2.1 i hi rfl
    · exact hj.2.2 rfl

theorem c6_witness :
    Database.get_post (cb_delete_post dbDelSmall schedDelSmall 2).1 2 = none ∧
    Database.count_participants (cb_delete_post dbDelSmall schedDelSmall 2).1 2 = 0 ∧
    JobId.idx 2 0 ∉ (cb_delete_post dbDelSmall schedDelSmall 2).2 := by
  have h := c6_delete_post dbDelSmall schedDelSmall 2 (by decide)
  exact ⟨h.1, h.2.2.1, fun hm => (h.2.2.2 _ hm) rfl⟩

/-- C6 counterexample: post 4 of `dbDel` carries eleven scheduled times, so
its registration leaves an entry with index 10; deleting the post removes
the row and its participants, but the entry with index 10 survives in the
Job Registry — deletion does not remove all of the post's entries. -/
theorem c6_counterexample :
    JobId.idx 4 10 ∈ schedDel ∧
    Database.get_post (cb_delete_post dbDel schedDel 4).1 4 = none ∧
    Database.count_participants (cb_delete_post dbDel schedDel 4).1 4 = 0 ∧
    JobId.idx 4 10 ∈ (cb_delete_post dbDel schedDel 4).2 := by
  decide

/-- C8 at the failing input: an authorized web-panel PUT toggling
`is_active` off applies the update to the store, but the Job Registry is
returned untouched — `WebPanel` holds no scheduler reference, so the post's
registered entry survives instead of being unregistered (and symmetrically
no re-registration happens on toggle-on). -/
theorem c8_web_put_leaves_registry :
    (WebPanel.update_post dbWeb schedWeb (some "tok") 5 { is_active := some 0 }).1
      = .updated 5 ∧
    (Database.get_post
        (WebPanel.update_post dbWeb schedWeb (some "tok") 5 { is_active := some 0 }).2.1 5).map
        (·.is_active)
      = some false ∧
    (WebPanel.update_post dbWeb schedWeb (some "tok") 5 { is_active := some 0 }).2.2
      = schedWeb ∧
    JobId.idx 5 0 ∈ schedWeb := by
  decide

/-! ## Bootstrap lemmas -/

/-- Whether the registration of a post raises does not depend on the state
of the Job Registry (errors come from parsing/validating the post's own
fields). -/
theorem register_single_job_snd_const (db : DB) (pid : Nat) (s s' : Sched) :
    (register_single_job db pid s).2 = (register_single_job db pid s').2 := by
  unfold register_single_job
  cases Database.get_post db pid with
  | none => rfl
  | some p =>
    dsimp only
    cases hact : p.is_active with
    | false => rfl
    | true =>
      simp only [Bool.not_true, Bool.false_eq_true, if_false]
      by_cases hc1 : (p.schedule_type == "once" && truthyS p.scheduled_date
          && p.scheduled_time != "") = true
      · rw [if_pos hc1, if_pos hc1, register_loop_snd, register_loop_snd]
      · rw [if_neg hc1, if_neg hc1]
        by_cases hc2 : (p.schedule_type == "daily" && p.scheduled_time != "") = true
        · rw [if_pos hc2, if_pos hc2, register_loop_snd, register_loop_snd]
        · rw [if_neg hc2, if_neg hc2]
          by_cases hc3 : (p.schedule_type == "weekly" && p.scheduled_time != ""
              && truthyS p.days_of_week) = true
          · rw [if_pos hc3, if_pos hc3, register_loop_snd, register_loop_snd]
          · rw [if_neg hc3, if_neg hc3]
            by_cases hc4 : (p.schedule_type == "monthly" && p.scheduled_time != ""
                && truthyI p.day_of_month) = true
            · rw [if_pos hc4, if_pos hc4, register_loop_snd, register_loop_snd]
            · rw [if_neg hc4, if_neg hc4]

theorem load_step_snd_const (db : DB) (pid : Nat) (s s' : Sched) :
    (load_step db pid s).2 = (load_step db pid s').2 := by
  unfold load_step
  cases Database.get_post db pid with
  | none => rfl
  | some p =>
    dsimp only
    by_cases h : p.is_active = true
    · rw [if_pos h, if_pos h]
      exact register_single_job_snd_const db pid s s'
    · rw [if_neg h, if_neg h]

/-- The bootstrap loop applies every step and logs exactly the failing
posts: a per-post error is caught, never aborting the remaining posts. -/
theorem load_loop_eq (db : DB) : ∀ (pids : List Nat) (s : Sched) (logs : List Nat),
    load_loop db pids (s, logs)
      = (pids.foldl (fun t pid => (load_step db pid t).1) s,
         logs ++ pids.filter (fun pid => ((load_step db pid []).2).isSome)) := by
  intro pids
  induction pids with
  | nil =>
    intro s logs
    simp [load_loop]
  | cons pid rest ih =>
    intro s logs
    have hconst := load_step_snd_const db pid [] s
    rcases hstep : load_step db pid s with ⟨s2, e⟩
    rw [hstep] at hconst
    cases e with
    | none =>
      have hfil : ((load_step db pid []).2).isSome = false := by rw [hconst]; rfl
      simp only [load_loop, hstep]
      rw [ih s2 logs]
      simp [List.foldl_cons, List.filter_cons, hstep, hfil]
    | some err =>
      have hfil : ((load_step db pid []).2).isSome = true := by rw [hconst]; rfl
      simp only [load_loop, hstep]
      rw [ih s2 (logs ++ [pid])]
      simp [List.foldl_cons, List.filter_cons, hstep, hfil]

/-- C9: on process start, bootstrap iterates over exactly the posts that
are active with a non-instant schedule type; the resulting Job Registry is
the fold of every such post's registration step in order — a post whose
registration raises contributes no abort, the remaining posts are still
processed — and exactly the posts whose registration raises receive a log
entry. -/
theorem c9_bootstrap_isolation (db : DB) (s : Sched) :
    load_jobs db s
      = ((Database.get_active_posts db).foldl (fun t pid => (load_step db pid t).1) s,
         (Database.get_active_posts db).filter
           (fun pid => ((load_step db pid []).2).isSome)) ∧
    Database.get_active_posts db
      = (db.posts.filter (fun p => p.is_active && p.schedule_type ≠ "instant")).map
          (·.post_id) := by
  refine ⟨?_, rfl⟩
  unfold load_jobs
  rw [load_loop_eq]
  simp

end Postbot
